import Mathlib

/-!
Shallow embedding of the duckddns-app core (src/duckddns_app/ip_utils.py,
duck_dns_updater.py, config_manager.py) and proofs about it.

Conventions of the embedding:
* A Python `Optional[str]` value becomes `Option String`; Python truthiness of
  such a value (`if x:`) is `pyTruthy` (present and non-empty).
* One HTTP GET is summarised by its observable outcome `FetchOutcome`: either a
  response (status code and text body) or a raised exception with a message.
* `requests.Response.text.strip()` is modelled by `pyStrip`, and
  `str.split('\n')` by `pySplitNl` (both keep empty pieces, and a split yields
  at least one piece), executable renderings of the Python string operations.
* The query-parameter dict built by `UpdateThread.update_duckdns` has a fixed
  key set (`domains`, `token`, `verbose`, optionally `ip`, `ipv6`), so it is
  modelled as a record with `Option` fields for the conditional keys.
* `get_ipv4` is parameterised by the environment: a function from service URL
  to that service's `FetchOutcome`.  Inside `update_duckdns` the values the two
  discovery helpers would return are packaged as a `DiscoveryOracle`.
* Logging and timestamps are side effects with no bearing on the claims and
  are not modelled.
-/

namespace DuckDNS

/-- Observable outcome of a single `requests.get` call: a response with its
HTTP status code and text body, or a raised exception with its message. -/
inductive FetchOutcome where
  | resp (status : Nat) (body : String)
  | exc (msg : String)
deriving DecidableEq, Repr

/-- Python truthiness of an `Optional[str]` value: present and non-empty. -/
def pyTruthy : Option String → Bool
  | none => false
  | some s => s != ""

/-- ASCII whitespace as Python's `str.strip()` recognises it. -/
def pyIsSpace (c : Char) : Bool :=
  c = ' ' || c = '\t' || c = '\n' || c = '\r' || c = '\x0b' || c = '\x0c'

/-- Strip leading and trailing whitespace from a character list. -/
def stripChars (cs : List Char) : List Char :=
  ((cs.dropWhile pyIsSpace).reverse.dropWhile pyIsSpace).reverse

/-- Python `str.strip()` (restricted to ASCII whitespace). -/
def pyStrip (s : String) : String :=
  ⟨stripChars s.data⟩

/-- Split a character list at every newline, keeping empty pieces; the result
always has at least one piece. -/
def splitNlChars : List Char → List (List Char)
  | [] => [[]]
  | c :: rest =>
    match splitNlChars rest with
    | [] => [[]]
    | line :: more =>
      if c = '\n' then [] :: line :: more else (c :: line) :: more

/-- Python `str.split('\n')`. -/
def pySplitNl (s : String) : List String :=
  (splitNlChars s.data).map fun l => ⟨l⟩

/-- The fixed ordered IPv4 echo-service list of `ip_utils.get_ipv4`. -/
def ipv4_services : List String :=
  ["https://api.ipify.org", "https://ipv4.icanhazip.com", "https://v4.ident.me"]

/-- The fixed ordered IPv6 echo-service list of `ip_utils.get_ipv6`. -/
def ipv6_services : List String :=
  ["https://api6.ipify.org", "https://ipv6.icanhazip.com", "https://v6.ident.me"]

/-- The service loop shared by `get_ipv4` and `get_ipv6`: try each service in
order; on a status-200 response return the trimmed body; on any other status
or on an exception fall through to the next service; return `none` when the
list is exhausted. -/
def tryServices (fetch : String → FetchOutcome) : List String → Option String
  | [] => none
  | s :: rest =>
    match fetch s with
    | .resp status body => if status = 200 then some (pyStrip body) else tryServices fetch rest
    | .exc _ => tryServices fetch rest

/-- `ip_utils.get_ipv4`, parameterised by the network environment. -/
def get_ipv4 (fetch : String → FetchOutcome) : Option String :=
  tryServices fetch ipv4_services

/-- `ip_utils.get_ipv6`, parameterised by the network environment. -/
def get_ipv6 (fetch : String → FetchOutcome) : Option String :=
  tryServices fetch ipv6_services

/-- What the two discovery helpers would return if invoked, i.e. the values of
`get_ipv4()` / `get_ipv6()` in the environment of one update attempt. -/
structure DiscoveryOracle where
  ipv4 : Option String
  ipv6 : Option String
deriving DecidableEq, Repr

/-- The query-parameter dict of `UpdateThread.update_duckdns`.  Its key set is
fixed by the code, so the dict is a record; `ip` and `ipv6` are the two keys
that are only conditionally assigned. -/
structure Params where
  domains : String
  token : String
  verbose : String
  ip : Option String
  ipv6 : Option String
deriving DecidableEq, Repr

/-- Lines 57-73 of duck_dns_updater.py: build the outgoing request parameters
from the thread's fields and (when consulted) the IPv4 discovery result. -/
def buildParams (domains token : String) (update_ipv4 update_ipv6 : Bool)
    (ipv4 ipv6 : Option String) (disc : DiscoveryOracle) : Params :=
  let p : Params :=
    { domains := domains, token := token, verbose := "true", ip := none, ipv6 := none }
  let p :=
    if update_ipv4 then
      if pyTruthy ipv4 then { p with ip := ipv4 }
      else if pyTruthy disc.ipv4 then { p with ip := disc.ipv4 }
      else p
    else p
  if update_ipv6 && pyTruthy ipv6 then { p with ipv6 := ipv6 } else p

/-- The result dict emitted by `UpdateThread.update_duckdns` (the `timestamp`
field is a side effect of the clock and is not modelled). -/
structure UpdateResult where
  success : Bool
  message : String
  ipv4 : Option String
  ipv6 : Option String
deriving DecidableEq, Repr

/-- Lines 79-99 of duck_dns_updater.py: interpret the body of a status-200
provider response. -/
def parse200 (body : String) : UpdateResult :=
  let lines := pySplitNl (pyStrip body)
  if lines.getD 0 "" = "OK" then
    let ipv4 :=
      if 1 < lines.length ∧ lines.getD 1 "" ≠ "" ∧ lines.getD 1 "" ≠ "NOCHANGE"
      then some (lines.getD 1 "") else none
    let ipv6 :=
      if 2 < lines.length ∧ lines.getD 2 "" ≠ "" ∧ lines.getD 2 "" ≠ "NOCHANGE"
      then some (lines.getD 2 "") else none
    let update_status := if 3 < lines.length then lines.getD 3 "" else "UPDATED"
    { success := true, message := "Update successful: " ++ update_status,
      ipv4 := ipv4, ipv6 := ipv6 }
  else
    { success := false, message := "Update failed: Invalid response",
      ipv4 := none, ipv6 := none }

/-- Lines 75-116 of duck_dns_updater.py: the provider call's outcome mapped to
an `UpdateResult`.  The `try`/`except` around the call and the parsing is the
`.exc` branch; every branch returns a result, none raises. -/
def update_duckdns (outcome : FetchOutcome) : UpdateResult :=
  match outcome with
  | .resp status body =>
    if status = 200 then parse200 body
    else { success := false, message := "Update failed: HTTP " ++ toString status,
           ipv4 := none, ipv6 := none }
  | .exc msg =>
    { success := false, message := "Network error: " ++ msg,
      ipv4 := none, ipv6 := none }

/-- A JSON scalar as it appears in the settings document (every field of the
default configuration is a string, a boolean or an integer). -/
inductive CVal where
  | s (v : String)
  | b (v : Bool)
  | n (v : Nat)
deriving DecidableEq, Repr

/-- A parsed settings document: an association of field names to values, as
`json.load` would produce for a JSON object of scalars. -/
abbrev ConfigDoc := List (String × CVal)

/-- `ConfigManager.get_default_config` (config_manager.py lines 73-87). -/
def get_default_config : ConfigDoc :=
  [("domains", .s ""), ("token", .s ""), ("update_ipv4", .b true),
   ("use_custom_ipv4", .b false), ("custom_ipv4", .s ""), ("update_ipv6", .b false),
   ("custom_ipv6", .s ""), ("auto_update", .b false), ("update_interval", .n 30),
   ("minimize_to_tray", .b true), ("start_minimized", .b false)]

/-- State of the persisted settings file as `load_config` can observe it:
missing, present but failing to parse (`json.load` raises), or present and
parsed to a document. -/
inductive FileState (α : Type) where
  | absent
  | unparsable
  | parsed (doc : α)
deriving DecidableEq, Repr

/-- `ConfigManager.load_config` (config_manager.py lines 17-30): a parsed file
is returned as is; a missing file or a parse error yields the defaults. -/
def load_config : FileState ConfigDoc → ConfigDoc
  | .absent => get_default_config
  | .unparsable => get_default_config
  | .parsed doc => doc

/-- The field names of the Settings data model (the persisted document,
including the presentation-only fields). -/
def settings_fields : List String :=
  ["domains", "token", "update_ipv4", "use_custom_ipv4", "custom_ipv4",
   "update_ipv6", "custom_ipv6", "auto_update", "update_interval",
   "minimize_to_tray", "start_minimized"]

/-- A document is fully populated when every field of the data model is
present in it. -/
@[reducible] def fullyPopulated (doc : ConfigDoc) : Prop :=
  ∀ k ∈ settings_fields, (doc.lookup k).isSome = true

/-- A heap of Python list objects: cell `i` of `cells` is the list stored at
address `i`.  Used to state what `save_history` does to its caller's list. -/
structure Store (α : Type) where
  cells : List (List α)

/-- Dereference address `r` (out-of-range addresses read as `[]`). -/
def Store.read (s : Store α) (r : Nat) : List α :=
  s.cells.getD r []

/-- Allocate a fresh list object, returning the new heap and its address. -/
def Store.alloc (s : Store α) (v : List α) : Store α × Nat :=
  (⟨s.cells ++ [v]⟩, s.cells.length)

/-- `ConfigManager.save_history` (config_manager.py lines 58-71), at the level
of heap effects.  The caller's history list lives at address `r`.  The local
name `history` is rebound: `history[-1000:]` allocates a fresh list holding
the last 1000 entries, leaving the caller's object untouched.  The returned
pair is the heap after the call and the list value passed to `json.dump`. -/
def save_history (s : Store α) (r : Nat) : Store α × List α :=
  let history := s.read r
  if history.length > 1000 then
    let alloced := s.alloc (history.drop (history.length - 1000))
    (alloced.fst, (alloced.fst).read alloced.snd)
  else
    (s, history)

/-- Modelled from the wording of claim C2: the `ip` parameter is the override
when present and non-empty, otherwise the discovery result whenever discovery
yields a value, otherwise absent; nothing when `update_ipv4` is false. -/
def claimC2_ip (update_ipv4 : Bool) (ipv4_override discovered : Option String) :
    Option String :=
  if update_ipv4 then
    if pyTruthy ipv4_override then ipv4_override
    else
      match discovered with
      | some v => some v
      | none => none
  else none

/-- Modelled from the wording of claim C9: return the first successful and
non-empty trimmed response body, skipping services whose response is a
failure or trims to empty. -/
def firstNonEmptySuccess (fetch : String → FetchOutcome) : List String → Option String
  | [] => none
  | s :: rest =>
    match fetch s with
    | .resp status body =>
      if status = 200 ∧ pyStrip body ≠ "" then some (pyStrip body)
      else firstNonEmptySuccess fetch rest
    | .exc _ => firstNonEmptySuccess fetch rest

/-- Whether a fetch outcome is a successful (status-200) response. -/
def isSuccess : FetchOutcome → Bool
  | .resp status _ => status == 200
  | .exc _ => false

/-- The text body of a response outcome (exceptions carry no body). -/
def respBody : FetchOutcome → String
  | .resp _ body => body
  | .exc _ => ""

/-- A fault of the provider call as claim C5 enumerates them: a network-level
exception, a non-200 status, or a 200 body whose first line is not "OK". -/
def isFault : FetchOutcome → Prop
  | .exc _ => True
  | .resp status body => status ≠ 200 ∨ (pySplitNl (pyStrip body)).getD 0 "" ≠ "OK"

/-- A string starting with a non-empty literal is non-empty. -/
theorem append_ne_empty (s t : String) (h : s.data ≠ []) : s ++ t ≠ "" := by
  intro he
  have hd : s.data ++ t.data = ([] : List Char) := congrArg String.data he
  exact h (List.append_eq_nil.mp hd).1

/-- Claim C1: for every HTTP 200 provider response body, after trimming and
splitting on newlines, a first line equal to "OK" yields success with `ipv4`
taken from the second line exactly when it exists, is non-empty and is not
"NOCHANGE" (else absent), `ipv6` likewise from the third line, and the
success message embedding the fourth line when present, else "UPDATED"; any
other first line yields a failure result whose message embeds "Invalid
response", with both IP fields absent. -/
theorem C1_response_parsing (body : String) (lines : List String)
    (hl : lines = pySplitNl (pyStrip body)) :
    (lines.getD 0 "" = "OK" →
      (update_duckdns (.resp 200 body)).success = true ∧
      (update_duckdns (.resp 200 body)).ipv4 =
        (if 1 < lines.length ∧ lines.getD 1 "" ≠ "" ∧ lines.getD 1 "" ≠ "NOCHANGE"
         then some (lines.getD 1 "") else none) ∧
      (update_duckdns (.resp 200 body)).ipv6 =
        (if 2 < lines.length ∧ lines.getD 2 "" ≠ "" ∧ lines.getD 2 "" ≠ "NOCHANGE"
         then some (lines.getD 2 "") else none) ∧
      ∃ pre, (update_duckdns (.resp 200 body)).message =
        pre ++ (if 3 < lines.length then lines.getD 3 "" else "UPDATED")) ∧
    (lines.getD 0 "" ≠ "OK" →
      (update_duckdns (.resp 200 body)).success = false ∧
      (update_duckdns (.resp 200 body)).ipv4 = none ∧
      (update_duckdns (.resp 200 body)).ipv6 = none ∧
      ∃ pre, (update_duckdns (.resp 200 body)).message = pre ++ "Invalid response") := by
  subst hl
  have hu : update_duckdns (.resp 200 body) = parse200 body := rfl
  constructor
  · intro hok
    rw [hu]
    simp only [parse200]
    rw [if_pos hok]
    exact ⟨rfl, rfl, rfl, "Update successful: ", rfl⟩
  · intro hko
    rw [hu]
    simp only [parse200]
    rw [if_neg hko]
    exact ⟨rfl, rfl, rfl, "Update failed: ", rfl⟩

/-- Witness for C1 at the spec's own example response. -/
theorem C1_response_parsing_witness :
    (update_duckdns (.resp 200 "OK\n1.2.3.4\n\nUPDATED")).success = true ∧
    (update_duckdns (.resp 200 "OK\n1.2.3.4\n\nUPDATED")).ipv4 = some "1.2.3.4" ∧
    (update_duckdns (.resp 200 "OK\n1.2.3.4\n\nUPDATED")).ipv6 = none ∧
    ∃ pre, (update_duckdns (.resp 200 "OK\n1.2.3.4\n\nUPDATED")).message =
      pre ++ "UPDATED" := by
  have h := (C1_response_parsing "OK\n1.2.3.4\n\nUPDATED"
      ["OK", "1.2.3.4", "", "UPDATED"] (by decide)).1 (by decide)
  refine ⟨h.1, h.2.1.trans (by decide), h.2.2.1.trans (by decide), ?_⟩
  obtain ⟨pre, hp⟩ := h.2.2.2
  refine ⟨pre, ?_⟩
  rw [hp, show (if 3 < (["OK", "1.2.3.4", "", "UPDATED"] : List String).length
    then (["OK", "1.2.3.4", "", "UPDATED"] : List String).getD 3 "" else "UPDATED") =
      "UPDATED" from by decide]

/-- Claim C2 as stated is false: a discovery result that is the empty string
(reachable, see `C9_counterexample`) is a value discovery yielded, yet the
engine omits the `ip` parameter where the claim would submit it. -/
theorem C2_counterexample :
    (buildParams "d" "t" true false none none ⟨some "", none⟩).ip ≠
      claimC2_ip true none (some "") := by decide

/-- Claim C2 (amended): if `update_ipv4` is true the `ip` parameter is the
override when present and non-empty, otherwise the discovery result when it
is present and non-empty, otherwise omitted (an empty-string discovery result
is treated like no result); if `update_ipv4` is false no `ip` parameter is
sent regardless of override. -/
theorem C2_ip_selection (domains token : String) (u4 u6 : Bool)
    (ip4 ip6 : Option String) (disc : DiscoveryOracle) :
    (buildParams domains token u4 u6 ip4 ip6 disc).ip =
      if u4 then
        if pyTruthy ip4 then ip4
        else if pyTruthy disc.ipv4 then disc.ipv4
        else none
      else none := by
  by_cases h4 : u4 <;> by_cases hp : pyTruthy ip4 <;>
    by_cases hd : pyTruthy disc.ipv4 <;>
    by_cases h6 : (u6 && pyTruthy ip6) = true <;>
    simp [buildParams, h4, hp, hd, h6]

/-- Witness for the amended C2: with `update_ipv4` true, no override and a
non-empty discovery result, the discovery result is submitted. -/
theorem C2_ip_selection_witness :
    (buildParams "example" "tok" true false none none ⟨some "1.2.3.4", none⟩).ip =
      some "1.2.3.4" :=
  (C2_ip_selection "example" "tok" true false none none ⟨some "1.2.3.4", none⟩).trans
    (by decide)

/-- Claim C3: the outgoing request carries an `ipv6` parameter iff
`update_ipv6` is true and the override is present and non-empty; the request
is independent of what IPv6 discovery would return (no fallback). -/
theorem C3_ipv6_selection (domains token : String) (u4 u6 : Bool)
    (ip4 ip6 : Option String) (disc : DiscoveryOracle) :
    ((buildParams domains token u4 u6 ip4 ip6 disc).ipv6 =
      if u6 && pyTruthy ip6 then ip6 else none) ∧
    ∀ d6 d6' : Option String,
      buildParams domains token u4 u6 ip4 ip6 { ipv4 := disc.ipv4, ipv6 := d6 } =
        buildParams domains token u4 u6 ip4 ip6 { ipv4 := disc.ipv4, ipv6 := d6' } := by
  constructor
  · by_cases h4 : u4 <;> by_cases hp : pyTruthy ip4 <;>
      by_cases hd : pyTruthy disc.ipv4 <;>
      by_cases h6 : (u6 && pyTruthy ip6) = true <;>
      simp [buildParams, h4, hp, hd, h6]
  · intro d6 d6'
    rfl

/-- Witness for C3: with `update_ipv4` false and `update_ipv6` true with
override "::1", the request has no `ip` value and `ipv6` is "::1". -/
theorem C3_ipv6_selection_witness :
    (buildParams "example" "tok" false true none (some "::1") ⟨none, none⟩).ipv6 =
      some "::1" :=
  ((C3_ipv6_selection "example" "tok" false true none (some "::1") ⟨none, none⟩).1).trans
    (by decide)

/-- Reading back a freshly allocated list yields the allocated value. -/
theorem Store.read_alloc {α : Type} (s : Store α) (v : List α) :
    (s.alloc v).fst.read (s.alloc v).snd = v := by
  simp [Store.alloc, Store.read, List.getD]

/-- Allocation does not change any existing cell. -/
theorem Store.read_alloc_lt {α : Type} (s : Store α) (v : List α) (r : Nat)
    (h : r < s.cells.length) : (s.alloc v).fst.read r = s.read r := by
  simp [Store.alloc, Store.read, List.getD, List.getElem?_append_left h]

/-- The value `save_history` hands to `json.dump`, as a function of the
caller's list. -/
theorem save_history_written {α : Type} (s : Store α) (r : Nat) :
    (save_history s r).snd =
      if (s.read r).length > 1000
      then (s.read r).drop ((s.read r).length - 1000)
      else s.read r := by
  simp only [save_history]
  split
  · exact Store.read_alloc ..
  · rfl

/-- Claim C4: for histories longer than 1000 entries, `save_history` writes
exactly the last 1000 entries in their original order (the written list is a
length-1000 suffix of the input); shorter histories are written unchanged;
the written history never exceeds 1000 entries. -/
theorem C4_save_history_cap {α : Type} (s : Store α) (r : Nat) :
    ((s.read r).length ≤ 1000 → (save_history s r).snd = s.read r) ∧
    (1000 < (s.read r).length →
      (save_history s r).snd.length = 1000 ∧
      ∃ dropped, s.read r = dropped ++ (save_history s r).snd) ∧
    (save_history s r).snd.length ≤ 1000 := by
  have hw := save_history_written s r
  refine ⟨fun hle => ?_, fun hgt => ⟨?_, ?_⟩, ?_⟩
  · rw [hw, if_neg (by omega)]
  · rw [hw, if_pos (by omega)]
    rw [List.length_drop]
    omega
  · refine ⟨(s.read r).take ((s.read r).length - 1000), ?_⟩
    rw [hw, if_pos (by omega), List.take_append_drop]
  · rw [hw]
    split
    · rw [List.length_drop]; omega
    · omega

set_option maxRecDepth 20000 in
/-- Witness for C4 on a concrete 1001-entry history. -/
theorem C4_save_history_cap_witness :
    (save_history (Store.mk [List.replicate 1001 (0 : Nat)]) 0).snd.length = 1000 ∧
    ∃ dropped, (Store.mk [List.replicate 1001 (0 : Nat)]).read 0 =
      dropped ++ (save_history (Store.mk [List.replicate 1001 (0 : Nat)]) 0).snd :=
  (C4_save_history_cap (Store.mk [List.replicate 1001 (0 : Nat)]) 0).2.1 (by decide)

/-- Claim C10: `save_history` never modifies the caller's in-memory list:
for any valid address, the list stored there is unchanged by the call
(truncation happens on a freshly allocated list that is only written out). -/
theorem C10_save_history_frame {α : Type} (s : Store α) (r : Nat)
    (h : r < s.cells.length) :
    ((save_history s r).fst).read r = s.read r := by
  simp only [save_history]
  split
  · exact Store.read_alloc_lt s _ r h
  · rfl

set_option maxRecDepth 20000 in
/-- Witness for C10 on a concrete 1001-entry history. -/
theorem C10_save_history_frame_witness :
    0 < (Store.mk [List.replicate 1001 (0 : Nat)]).cells.length ∧
    ((save_history (Store.mk [List.replicate 1001 (0 : Nat)]) 0).fst).read 0 =
      (Store.mk [List.replicate 1001 (0 : Nat)]).read 0 :=
  ⟨by decide, C10_save_history_frame (Store.mk [List.replicate 1001 (0 : Nat)]) 0 (by decide)⟩

/-- Claim C5: every fault of the provider call (network exception, non-200
status, or 200 body whose first line is not "OK") is converted into a result
with `success = false` and a non-empty message; the engine returns a result
on every outcome rather than raising. -/
theorem C5_no_fault_escapes (o : FetchOutcome) (h : isFault o) :
    (update_duckdns o).success = false ∧ (update_duckdns o).message ≠ "" := by
  cases o with
  | exc msg =>
    exact ⟨rfl, append_ne_empty "Network error: " msg (by decide)⟩
  | resp status body =>
    by_cases hst : status = 200
    · subst hst
      have hko : (pySplitNl (pyStrip body)).getD 0 "" ≠ "OK" := by
        simp only [isFault] at h
        rcases h with h' | h'
        · exact absurd rfl h'
        · exact h'
      have hu : update_duckdns (.resp 200 body) = parse200 body := rfl
      rw [hu]
      simp only [parse200]
      rw [if_neg hko]
      exact ⟨rfl, by decide⟩
    · have hu : update_duckdns (.resp status body) =
          { success := false, message := "Update failed: HTTP " ++ toString status,
            ipv4 := none, ipv6 := none } := by
        simp [update_duckdns, hst]
      rw [hu]
      exact ⟨rfl, append_ne_empty "Update failed: HTTP " (toString status) (by decide)⟩

/-- Witness for C5 at a network fault. -/
theorem C5_no_fault_escapes_witness :
    isFault (FetchOutcome.exc "timeout") ∧
    (update_duckdns (FetchOutcome.exc "timeout")).success = false ∧
    (update_duckdns (FetchOutcome.exc "timeout")).message ≠ "" :=
  ⟨trivial, C5_no_fault_escapes (FetchOutcome.exc "timeout") trivial⟩

/-- Claim C6 as stated is false: loading an existing, parsable file that
omits fields returns the parsed document as is, so the field "domains" is
absent after loading a parsable empty document. -/
theorem C6_counterexample :
    ¬ fullyPopulated (load_config (FileState.parsed [])) := by decide

/-- Claim C6 (amended): a load of a missing or unparsable settings file
returns the fully-populated default document; a load of an existing parsable
file returns the parsed document unchanged, so fields it omits stay absent
after the load (the readers apply defaults at access time instead). -/
theorem C6_load_population (fs : FileState ConfigDoc) :
    (fs = FileState.absent ∨ fs = FileState.unparsable →
      load_config fs = get_default_config ∧ fullyPopulated (load_config fs)) ∧
    ∀ doc, fs = FileState.parsed doc → load_config fs = doc := by
  refine ⟨fun h => ?_, fun doc h => ?_⟩
  · rcases h with h | h <;> subst h <;> exact ⟨rfl, by decide⟩
  · subst h; rfl

/-- Witness for the amended C6 at a missing file. -/
theorem C6_load_population_witness :
    load_config (FileState.absent : FileState ConfigDoc) = get_default_config ∧
    fullyPopulated (load_config (FileState.absent : FileState ConfigDoc)) :=
  (C6_load_population FileState.absent).1 (Or.inl rfl)

/-- Claim C7: loading a missing or unparsable settings file returns the
fully-populated default document (and, the model being a total function,
never raises). -/
theorem C7_load_defaults (fs : FileState ConfigDoc)
    (h : fs = FileState.absent ∨ fs = FileState.unparsable) :
    load_config fs = get_default_config ∧ fullyPopulated (load_config fs) := by
  rcases h with h | h <;> subst h <;> exact ⟨rfl, by decide⟩

/-- Witness for C7 at an unparsable file. -/
theorem C7_load_defaults_witness :
    ((FileState.unparsable : FileState ConfigDoc) = FileState.absent ∨
      (FileState.unparsable : FileState ConfigDoc) = FileState.unparsable) ∧
    load_config (FileState.unparsable : FileState ConfigDoc) = get_default_config ∧
    fullyPopulated (load_config (FileState.unparsable : FileState ConfigDoc)) :=
  ⟨Or.inr rfl, (C7_load_defaults FileState.unparsable (Or.inr rfl)).1,
    (C7_load_defaults FileState.unparsable (Or.inr rfl)).2⟩

/-- Claim C8: every non-200 provider status yields a failure result whose
message embeds the status code, with both IP fields absent. -/
theorem C8_non200_failure (status : Nat) (body : String) (h : status ≠ 200) :
    (update_duckdns (.resp status body)).success = false ∧
    (update_duckdns (.resp status body)).ipv4 = none ∧
    (update_duckdns (.resp status body)).ipv6 = none ∧
    ∃ pre, (update_duckdns (.resp status body)).message = pre ++ toString status := by
  have hu : update_duckdns (.resp status body) =
      { success := false, message := "Update failed: HTTP " ++ toString status,
        ipv4 := none, ipv6 := none } := by
    simp [update_duckdns, h]
  rw [hu]
  exact ⟨rfl, rfl, rfl, "Update failed: HTTP ", rfl⟩

/-- Witness for C8 at status 500: the message mentions "500". -/
theorem C8_non200_failure_witness :
    (500 ≠ 200) ∧
    (update_duckdns (.resp 500 "INTERNAL SERVER ERROR")).success = false ∧
    (update_duckdns (.resp 500 "INTERNAL SERVER ERROR")).ipv4 = none ∧
    (update_duckdns (.resp 500 "INTERNAL SERVER ERROR")).ipv6 = none ∧
    ∃ pre, (update_duckdns (.resp 500 "INTERNAL SERVER ERROR")).message =
      pre ++ "500" := by
  refine ⟨by decide, ?_⟩
  have h := C8_non200_failure 500 "INTERNAL SERVER ERROR" (by decide)
  refine ⟨h.1, h.2.1, h.2.2.1, ?_⟩
  obtain ⟨pre, hp⟩ := h.2.2.2
  have ht : toString (500 : Nat) = "500" := by decide
  exact ⟨pre, by rw [hp, ht]⟩

/-- The service loop returns nothing exactly when no service responds with
status 200 (every attempt raises or has another status). -/
theorem tryServices_eq_none_iff (fetch : String → FetchOutcome) (l : List String) :
    tryServices fetch l = none ↔ ∀ s ∈ l, isSuccess (fetch s) = false := by
  induction l with
  | nil => simp [tryServices]
  | cons s rest ih =>
    simp only [tryServices, List.mem_cons, forall_eq_or_imp]
    cases hf : fetch s with
    | resp status body =>
      by_cases h2 : status = 200
      · subst h2
        simp [isSuccess, hf]
      · simp [isSuccess, hf, h2, ih]
    | exc m =>
      simp [isSuccess, hf, ih]

/-- When the service loop returns a value, it is the stripped body of the
first status-200 response, every earlier service having failed. -/
theorem tryServices_eq_some (fetch : String → FetchOutcome) (l : List String)
    (v : String) (h : tryServices fetch l = some v) :
    ∃ l1 s l2, l = l1 ++ s :: l2 ∧
      (∀ s2 ∈ l1, isSuccess (fetch s2) = false) ∧
      isSuccess (fetch s) = true ∧ v = pyStrip (respBody (fetch s)) := by
  induction l with
  | nil => simp [tryServices] at h
  | cons s rest ih =>
    simp only [tryServices] at h
    cases hf : fetch s with
    | resp status body =>
      rw [hf] at h
      have h : (if status = 200 then some (pyStrip body) else tryServices fetch rest) =
          some v := h
      by_cases h2 : status = 200
      · subst h2
        rw [if_pos rfl] at h
        refine ⟨[], s, rest, rfl, by simp, by simp [isSuccess, hf], ?_⟩
        rw [hf]
        exact (Option.some_injective _ h).symm
      · rw [if_neg h2] at h
        obtain ⟨l1, s1, l2, hl, hfail, hsucc, hv⟩ := ih h
        refine ⟨s :: l1, s1, l2, by rw [hl]; rfl, ?_, hsucc, hv⟩
        intro s2 hs2
        rcases List.mem_cons.mp hs2 with h' | h'
        · subst h'
          simp [isSuccess, hf, h2]
        · exact hfail s2 h'
    | exc m =>
      rw [hf] at h
      have h : tryServices fetch rest = some v := h
      obtain ⟨l1, s1, l2, hl, hfail, hsucc, hv⟩ := ih h
      refine ⟨s :: l1, s1, l2, by rw [hl]; rfl, ?_, hsucc, hv⟩
      intro s2 hs2
      rcases List.mem_cons.mp hs2 with h' | h'
      · subst h'
        simp [isSuccess, hf]
      · exact hfail s2 h'

/-- Claim C9 as stated is false: the code performs no non-emptiness check on
a successful response, so when the first service answers 200 with a
whitespace-only body, `get_ipv4` returns the empty string where the claim's
reading (skip successful-but-empty bodies) yields absence. -/
theorem C9_counterexample :
    get_ipv4 (fun _ => FetchOutcome.resp 200 " ") = some "" ∧
    firstNonEmptySuccess (fun _ => FetchOutcome.resp 200 " ") ipv4_services = none :=
  ⟨by decide, by decide⟩

/-- Claim C9 (amended): `get_ipv4` tries its fixed ordered service list in
order and returns the trimmed body of the first status-200 response — even
when that body trims to the empty string, and without validating it as an
IP; it returns absence exactly when no service responds with status 200
(every attempt raises or has another status, each skipped non-fatally with
the loop continuing), rather than raising. -/
theorem C9_first_success (fetch : String → FetchOutcome) :
    (get_ipv4 fetch = none ↔ ∀ s ∈ ipv4_services, isSuccess (fetch s) = false) ∧
    ∀ v, get_ipv4 fetch = some v →
      ∃ l1 s l2, ipv4_services = l1 ++ s :: l2 ∧
        (∀ s2 ∈ l1, isSuccess (fetch s2) = false) ∧
        isSuccess (fetch s) = true ∧ v = pyStrip (respBody (fetch s)) :=
  ⟨tryServices_eq_none_iff fetch ipv4_services,
   fun v h => tryServices_eq_some fetch ipv4_services v h⟩

/-- A concrete environment for the C9 witness: the first service times out,
the remaining services answer 200 with a body that trims to an address. -/
def fetchWitnessEnv : String → FetchOutcome :=
  fun s => if s = "https://api.ipify.org" then FetchOutcome.exc "timed out"
           else FetchOutcome.resp 200 " 81.2.69.142\n"

/-- Witness for the amended C9: in `fetchWitnessEnv` the loop skips the
failing first service and returns the second service's trimmed body. -/
theorem C9_first_success_witness :
    ∃ l1 s l2, ipv4_services = l1 ++ s :: l2 ∧
      (∀ s2 ∈ l1, isSuccess (fetchWitnessEnv s2) = false) ∧
      isSuccess (fetchWitnessEnv s) = true ∧
      "81.2.69.142" = pyStrip (respBody (fetchWitnessEnv s)) :=
  (C9_first_success fetchWitnessEnv).2 "81.2.69.142" (by decide)

end DuckDNS
